import Mathlib

/-!
Shallow embedding of the NAFPD risk-scoring engine of `src/streamlit_app.py`
(the single source file of the repository), together with proofs of the
claimed properties of the scorer.

The scoring engine of the source is the straight-line code at lines 42-99:
the FLI index (lines 42-49), the mFIB-4 index (line 52), the seven binary
flags (lines 55-61), the logistic combination (lines 64-84) and the tiered
verdict (lines 94-99).  All of it is pure real arithmetic, embedded here
over `ℝ` with `Real.log` and `Real.exp`.
-/

namespace NAFPD

/-- Gender of the patient.  The spec's ClinicalInput (section 3) declares a
gender field; the source collects no gender widget and reads no gender in any
scoring expression, so the field is carried in the record but never used by
the scorer. -/
inductive Gender where
  | male : Gender
  | female : Gender
deriving DecidableEq

/-- One form submission: the ten numeric widgets of lines 27-37 of the source
(age is an integer widget, the rest are real-valued), plus the gender field
declared by the spec's data model. -/
structure ClinicalInput where
  gender : Gender
  age : ℕ
  fpg : ℝ
  ggt : ℝ
  waist : ℝ
  nlr : ℝ
  triglycerides : ℝ
  bmi : ℝ
  ast : ℝ
  alt : ℝ
  platelet : ℝ

/-- Line 42-48 of the source: the logit of the liver fat index. -/
noncomputable def logit_fli (c : ClinicalInput) : ℝ :=
  0.953 * Real.log c.triglycerides +
  0.139 * c.bmi +
  0.718 * Real.log c.ggt +
  0.053 * c.waist -
  15.745

/-- Line 49 of the source: FLI as a percentage. -/
noncomputable def fli (c : ClinicalInput) : ℝ :=
  Real.exp (logit_fli c) / (1 + Real.exp (logit_fli c)) * 100

/-- Line 52 of the source: the modified FIB-4 index. -/
noncomputable def mfib4 (c : ClinicalInput) : ℝ :=
  10 * c.age * c.ast / (c.platelet * c.alt)

/-- Line 55 of the source: the age flag, 1 when age is strictly above 65. -/
def x_age (c : ClinicalInput) : ℝ :=
  if c.age > 65 then 1 else 0

/-- Line 56 of the source: the fasting-glucose flag. -/
noncomputable def x_fpg (c : ClinicalInput) : ℝ :=
  if c.fpg > 6.1 then 1 else 0

/-- Line 57 of the source: the GGT flag; threshold 50 for every input, with no
gender dependence. -/
noncomputable def x_ggt (c : ClinicalInput) : ℝ :=
  if c.ggt > 50 then 1 else 0

/-- Line 58 of the source: the waist flag; threshold 88.493 for every input,
with no gender dependence. -/
noncomputable def x_waist (c : ClinicalInput) : ℝ :=
  if c.waist > 88.493 then 1 else 0

/-- Line 59 of the source: the FLI flag. -/
noncomputable def x_fli (c : ClinicalInput) : ℝ :=
  if fli c > 24.7 then 1 else 0

/-- Line 60 of the source: the mFIB-4 flag. -/
noncomputable def x_mfib4 (c : ClinicalInput) : ℝ :=
  if mfib4 c > 3.05 then 1 else 0

/-- Line 61 of the source: the NLR flag. -/
noncomputable def x_nlr (c : ClinicalInput) : ℝ :=
  if c.nlr > 1.97 then 1 else 0

/-- Line 64 of the source: the fitted intercept. -/
def intercept : ℝ := -3.089

/-- The seven named risk factors, in the order of the keys of the source's
`coefficients` dict (lines 65-73) and of its `factors` list (line 105):
`Age>65`, `FPG>6.1`, `GGT>50`, `Waist>88.493`, `FLI>24.7`, `mFIB4>3.05`,
`NLR>1.97`. -/
inductive Factor where
  | ageHigh : Factor
  | glucoseHigh : Factor
  | ggtHigh : Factor
  | waistHigh : Factor
  | fliHigh : Factor
  | fib4High : Factor
  | nlrHigh : Factor
deriving DecidableEq

/-- Lines 65-73 of the source: the `coefficients` dict, as a function on the
seven factor keys. -/
def coefficients : Factor → ℝ
  | .ageHigh => 0.748
  | .glucoseHigh => 0.903
  | .ggtHigh => 0.510
  | .waistHigh => 0.721
  | .fliHigh => 0.589
  | .fib4High => 0.731
  | .nlrHigh => 0.458

/-- Lines 74-83 of the source: the logistic-regression logit, intercept plus
the seven coefficient-times-flag terms in dict order. -/
noncomputable def logit_p (c : ClinicalInput) : ℝ :=
  intercept +
    coefficients .ageHigh * x_age c +
    coefficients .glucoseHigh * x_fpg c +
    coefficients .ggtHigh * x_ggt c +
    coefficients .waistHigh * x_waist c +
    coefficients .fliHigh * x_fli c +
    coefficients .fib4High * x_mfib4 c +
    coefficients .nlrHigh * x_nlr c

/-- Line 84 of the source: the risk probability. -/
noncomputable def probability (c : ClinicalInput) : ℝ :=
  1 / (1 + Real.exp (-logit_p c))

/-- The three risk tiers rendered at lines 94-99 of the source as the messages
"Low risk", "Moderate risk - consider regular monitoring" and
"High risk - recommend further evaluation". -/
inductive RiskTier where
  | low : RiskTier
  | moderate : RiskTier
  | high : RiskTier
deriving DecidableEq

/-- Lines 94-99 of the source: the tiered verdict on the probability. -/
noncomputable def verdict (c : ClinicalInput) : RiskTier :=
  if probability c < 0.2 then .low
  else if probability c < 0.5 then .moderate
  else .high

/-- The declared input domains of spec section 3, which are exactly the
min/max bounds of the source's number-input widgets (lines 27-37). -/
def InDomain (c : ClinicalInput) : Prop :=
  1 ≤ c.age ∧ c.age ≤ 120 ∧
  2 ≤ c.fpg ∧ c.fpg ≤ 30 ∧
  5 ≤ c.ggt ∧ c.ggt ≤ 500 ∧
  30 ≤ c.waist ∧ c.waist ≤ 150 ∧
  0.1 ≤ c.nlr ∧ c.nlr ≤ 15 ∧
  10 ≤ c.triglycerides ∧ c.triglycerides ≤ 1000 ∧
  10 ≤ c.bmi ∧ c.bmi ≤ 50 ∧
  5 ≤ c.ast ∧ c.ast ≤ 500 ∧
  5 ≤ c.alt ∧ c.alt ≤ 500 ∧
  10 ≤ c.platelet ∧ c.platelet ≤ 1000

/-- Replacing the gender field of an input, leaving the ten numeric fields
unchanged.  Used to state that the scorer is insensitive to gender. -/
def setGender (c : ClinicalInput) (g : Gender) : ClinicalInput :=
  ⟨g, c.age, c.fpg, c.ggt, c.waist, c.nlr, c.triglycerides, c.bmi, c.ast,
    c.alt, c.platelet⟩

/-- Modelled from the spec: the gender-conditioned GGT flag of spec section
4.1 (threshold 50.0 for Male, 32.0 for Female), stated only so it can be
compared against the source's gender-free `x_ggt`. -/
noncomputable def spec_x_ggt (c : ClinicalInput) : ℝ :=
  match c.gender with
  | .male => if c.ggt > 50 then 1 else 0
  | .female => if c.ggt > 32 then 1 else 0

/-- Modelled from the spec: the gender-conditioned waist flag of spec section
4.1 (threshold 93.4 for Male, 88.493 for Female), for comparison against the
source's gender-free `x_waist`. -/
noncomputable def spec_x_waist (c : ClinicalInput) : ℝ :=
  match c.gender with
  | .male => if c.waist > 93.4 then 1 else 0
  | .female => if c.waist > 88.493 then 1 else 0

/-- The default form values of the source widgets (lines 27-37): age 50,
fpg 5.5, ggt 30, waist 85, nlr 1.5, triglycerides 150, bmi 23, ast 20,
alt 25, platelet 200.  The gender field is irrelevant to the scorer; male is
used here. -/
def cDefault : ClinicalInput :=
  ⟨.male, 50, 5.5, 30, 85, 1.5, 150, 23, 20, 25, 200⟩

/-- The high-risk example input of spec section 8: age 70, fpg 7.0, ggt 60,
waist 95, nlr 2.5, triglycerides 200, bmi 30, ast 40, alt 20, platelet 150,
gender Male. -/
def cHigh : ClinicalInput :=
  ⟨.male, 70, 7.0, 60, 95, 2.5, 200, 30, 40, 20, 150⟩

/-- A boundary input sitting exactly at the five directly-compared
thresholds: age 65, fpg 6.1, ggt 50, waist 88.493, nlr 1.97. -/
def cBoundary : ClinicalInput :=
  ⟨.female, 65, 6.1, 50, 88.493, 1.97, 150, 23, 20, 25, 200⟩

/-- A female input with ggt 40, separating the source's uniform GGT
threshold 50 from the spec's female threshold 32. -/
def cFemale40 : ClinicalInput :=
  ⟨.female, 50, 5.5, 40, 85, 1.5, 150, 23, 20, 25, 200⟩

/-- A zero-or-one conditional equals 1 exactly when its condition holds. -/
lemma ite_eq_one_iff {p : Prop} [Decidable p] :
    (if p then (1 : ℝ) else 0) = 1 ↔ p := by
  split_ifs with h
  · exact iff_of_true rfl h
  · exact iff_of_false (by norm_num) h

/-- A zero-or-one conditional is bounded between 0 and 1. -/
lemma ite_zero_one_bounds {p : Prop} [Decidable p] :
    0 ≤ (if p then (1 : ℝ) else 0) ∧ (if p then (1 : ℝ) else 0) ≤ 1 := by
  split_ifs <;> norm_num

/-- Numeric bound used for the log estimates: exp 5 is below 149. -/
lemma exp_five_lt : Real.exp 5 < 149 := by
  have h1 : Real.exp 5 = Real.exp 1 ^ 5 := by
    rw [← Real.exp_nat_mul]; norm_num
  have h2 : Real.exp 1 ^ 5 < 2.7182818286 ^ 5 :=
    pow_lt_pow_left₀ Real.exp_one_lt_d9 (Real.exp_pos 1).le (by norm_num)
  have h3 : (2.7182818286 : ℝ) ^ 5 < 149 := by norm_num
  linarith

/-- Numeric bound: exp 5 is above 132.25, the square of 11.5. -/
lemma exp_five_gt : (132.25 : ℝ) < Real.exp 5 := by
  have h1 : Real.exp 5 = Real.exp 1 ^ 5 := by
    rw [← Real.exp_nat_mul]; norm_num
  have h2 : (2.7182818283 : ℝ) ^ 5 < Real.exp 1 ^ 5 :=
    pow_lt_pow_left₀ Real.exp_one_gt_d9 (by norm_num) (by norm_num)
  have h3 : (132.25 : ℝ) < 2.7182818283 ^ 5 := by norm_num
  linarith

/-- Numeric bound: exp 4 is below 55. -/
lemma exp_four_lt : Real.exp 4 < 55 := by
  have h1 : Real.exp 4 = Real.exp 1 ^ 4 := by
    rw [← Real.exp_nat_mul]; norm_num
  have h2 : Real.exp 1 ^ 4 < 2.7182818286 ^ 4 :=
    pow_lt_pow_left₀ Real.exp_one_lt_d9 (Real.exp_pos 1).le (by norm_num)
  have h3 : (2.7182818286 : ℝ) ^ 4 < 55 := by norm_num
  linarith

/-- Numeric bound: exp 3 is above 20.0704, the square of 4.48. -/
lemma exp_three_gt : (20.0704 : ℝ) < Real.exp 3 := by
  have h1 : Real.exp 3 = Real.exp 1 ^ 3 := by
    rw [← Real.exp_nat_mul]; norm_num
  have h2 : (2.7182818283 : ℝ) ^ 3 < Real.exp 1 ^ 3 :=
    pow_lt_pow_left₀ Real.exp_one_gt_d9 (by norm_num) (by norm_num)
  have h3 : (20.0704 : ℝ) < 2.7182818283 ^ 3 := by norm_num
  linarith

/-- Numeric bound: exp 8 is below 2981. -/
lemma exp_eight_lt : Real.exp 8 < 2981 := by
  have h1 : Real.exp 8 = Real.exp 1 ^ 8 := by
    rw [← Real.exp_nat_mul]; norm_num
  have h2 : Real.exp 1 ^ 8 < 2.7182818286 ^ 8 :=
    pow_lt_pow_left₀ Real.exp_one_lt_d9 (Real.exp_pos 1).le (by norm_num)
  have h3 : (2.7182818286 : ℝ) ^ 8 < 2981 := by norm_num
  linarith

/-- Numeric bound: exp 17 is below 30 to the fifth power. -/
lemma exp_seventeen_lt : Real.exp 17 < 24300000 := by
  have h1 : Real.exp 17 = Real.exp 1 ^ 17 := by
    rw [← Real.exp_nat_mul]; norm_num
  have h2 : Real.exp 1 ^ 17 < 2.7182818286 ^ 17 :=
    pow_lt_pow_left₀ Real.exp_one_lt_d9 (Real.exp_pos 1).le (by norm_num)
  have h3 : (2.7182818286 : ℝ) ^ 17 < 24300000 := by norm_num
  linarith

/-- Bounding a logarithm from below by bounding the exponential. -/
lemma lt_log_of_exp_lt {x y : ℝ} (hy : 0 < y) (h : Real.exp x < y) :
    x < Real.log y :=
  Real.exp_lt_exp.mp (by rwa [Real.exp_log hy])

/-- Lower bound on the natural log of 150. -/
lemma log_150_gt : (5 : ℝ) < Real.log 150 :=
  lt_log_of_exp_lt (by norm_num) (by linarith [exp_five_lt])

/-- Lower bound on the natural log of 200. -/
lemma log_200_gt : (5 : ℝ) < Real.log 200 :=
  lt_log_of_exp_lt (by norm_num) (by linarith [exp_five_lt])

/-- Lower bound on the natural log of 60. -/
lemma log_60_gt : (4 : ℝ) < Real.log 60 :=
  lt_log_of_exp_lt (by norm_num) (by linarith [exp_four_lt])

/-- Lower bound on the natural log of 30, via exp 3.4 to the fifth power. -/
lemma log_30_gt : (3.4 : ℝ) < Real.log 30 := by
  have h1 : Real.exp 3.4 ^ 5 = Real.exp 17 := by
    rw [← Real.exp_nat_mul]; norm_num
  have h2 : Real.exp 3.4 < 30 := by
    refine lt_of_pow_lt_pow_left₀ 5 (by norm_num) ?_
    rw [h1]
    calc Real.exp 17 < 24300000 := exp_seventeen_lt
      _ = 30 ^ 5 := by norm_num
  exact lt_log_of_exp_lt (by norm_num) h2

/-- The FLI of an input exceeds 24.7 as soon as the exponential of the
negated FLI logit stays below 3. -/
lemma fli_gt_of_exp_neg_lt {c : ClinicalInput}
    (h : Real.exp (-logit_fli c) < 3) : 24.7 < fli c := by
  have hEpos : 0 < Real.exp (logit_fli c) := Real.exp_pos _
  have hinv : (Real.exp (logit_fli c))⁻¹ < 3 := by rwa [Real.exp_neg] at h
  have h1 : (1 : ℝ) < 3 * Real.exp (logit_fli c) := by
    have h2 := mul_lt_mul_of_pos_right hinv hEpos
    rwa [inv_mul_cancel₀ hEpos.ne'] at h2
  have hden : 0 < 1 + Real.exp (logit_fli c) := by linarith
  rw [fli, div_mul_eq_mul_div, lt_div_iff₀ hden]
  linarith

/-- Monotonicity of the logistic function. -/
lemma sigmoid_mono {x y : ℝ} (h : x ≤ y) :
    1 / (1 + Real.exp (-x)) ≤ 1 / (1 + Real.exp (-y)) := by
  have h1 : Real.exp (-y) ≤ Real.exp (-x) := Real.exp_le_exp.mpr (by linarith)
  have h2 : 0 < 1 + Real.exp (-y) := by positivity
  exact one_div_le_one_div_of_le h2 (by linarith)

/-- The negated FLI logit at the default input stays below 1, since
log 150 exceeds 5 and log 30 exceeds 3.4. -/
lemma neg_logit_fli_default_lt : -logit_fli cDefault < 1 := by
  have h150 := log_150_gt
  have h30 := log_30_gt
  simp only [logit_fli, cDefault]
  linarith

/-- The FLI flag fires at the default input: FLI there is about 30.45. -/
lemma x_fli_default : x_fli cDefault = 1 := by
  have h : Real.exp (-logit_fli cDefault) < 3 := by
    have h1 : Real.exp (-logit_fli cDefault) < Real.exp 1 :=
      Real.exp_lt_exp.mpr neg_logit_fli_default_lt
    have h2 := Real.exp_one_lt_d9
    linarith
  rw [x_fli, if_pos (fli_gt_of_exp_neg_lt h)]

/-- The age flag is off at the default input. -/
lemma x_age_default : x_age cDefault = 0 := by
  rw [x_age, if_neg (by decide : ¬ cDefault.age > 65)]

/-- The glucose flag is off at the default input. -/
lemma x_fpg_default : x_fpg cDefault = 0 := by
  rw [x_fpg]; exact if_neg (by norm_num [cDefault])

/-- The GGT flag is off at the default input. -/
lemma x_ggt_default : x_ggt cDefault = 0 := by
  rw [x_ggt]; exact if_neg (by norm_num [cDefault])

/-- The waist flag is off at the default input. -/
lemma x_waist_default : x_waist cDefault = 0 := by
  rw [x_waist]; exact if_neg (by norm_num [cDefault])

/-- The mFIB-4 index at the default input evaluates to 2. -/
lemma mfib4_default : mfib4 cDefault = 2 := by
  simp only [mfib4, cDefault]
  norm_num

/-- The mFIB-4 flag is off at the default input. -/
lemma x_mfib4_default : x_mfib4 cDefault = 0 := by
  rw [x_mfib4, if_neg (by rw [mfib4_default]; norm_num)]

/-- The NLR flag is off at the default input. -/
lemma x_nlr_default : x_nlr cDefault = 0 := by
  rw [x_nlr]; exact if_neg (by norm_num [cDefault])

/-- The logit at the default input is the intercept plus the single FLI
coefficient 0.589, hence -2.5. -/
lemma logit_p_default : logit_p cDefault = -2.5 := by
  simp only [logit_p, intercept, coefficients, x_age_default, x_fpg_default,
    x_ggt_default, x_waist_default, x_fli_default, x_mfib4_default,
    x_nlr_default]
  norm_num

/-- The probability at the default input in closed form. -/
lemma probability_default : probability cDefault = 1 / (1 + Real.exp 2.5) := by
  rw [probability, logit_p_default]
  norm_num

/-- Numeric bound: exp 2.5 exceeds 11.5. -/
lemma exp_two_half_gt : (11.5 : ℝ) < Real.exp 2.5 := by
  have h1 : Real.exp 2.5 ^ 2 = Real.exp 5 := by
    rw [← Real.exp_nat_mul]; norm_num
  refine lt_of_pow_lt_pow_left₀ 2 (Real.exp_pos 2.5).le ?_
  rw [h1]
  calc (11.5 : ℝ) ^ 2 = 132.25 := by norm_num
    _ < Real.exp 5 := exp_five_gt

/-- Numeric bound: exp 2.5 is below 93 sevenths. -/
lemma exp_two_half_lt : Real.exp 2.5 < 93 / 7 := by
  have h1 : Real.exp 2.5 ^ 2 = Real.exp 5 := by
    rw [← Real.exp_nat_mul]; norm_num
  refine lt_of_pow_lt_pow_left₀ 2 (by norm_num : (0 : ℝ) ≤ 93 / 7) ?_
  rw [h1]
  calc Real.exp 5 < 149 := exp_five_lt
    _ < (93 / 7 : ℝ) ^ 2 := by norm_num

/-- The probability at the default input lies strictly between 0.07 and
0.08 (its value is about 0.0759). -/
lemma probability_default_bounds :
    0.07 < probability cDefault ∧ probability cDefault < 0.08 := by
  rw [probability_default]
  have hgt := exp_two_half_gt
  have hlt := exp_two_half_lt
  have hden : (0 : ℝ) < 1 + Real.exp 2.5 := by positivity
  constructor
  · rw [lt_div_iff₀ hden]; linarith
  · rw [div_lt_iff₀ hden]; linarith

/-- The verdict at the default input is the low tier. -/
lemma verdict_default : verdict cDefault = .low := by
  have h := probability_default_bounds
  rw [verdict, if_pos (by linarith [h.2] : probability cDefault < 0.2)]

/-- The negated FLI logit at the high-risk example input is below 1 (it is
in fact negative), since log 200 exceeds 5 and log 60 exceeds 4. -/
lemma neg_logit_fli_high_lt : -logit_fli cHigh < 1 := by
  have h200 := log_200_gt
  have h60 := log_60_gt
  simp only [logit_fli, cHigh]
  linarith

/-- The FLI flag fires at the high-risk example input. -/
lemma x_fli_high : x_fli cHigh = 1 := by
  have h : Real.exp (-logit_fli cHigh) < 3 := by
    have h1 : Real.exp (-logit_fli cHigh) < Real.exp 1 :=
      Real.exp_lt_exp.mpr neg_logit_fli_high_lt
    have h2 := Real.exp_one_lt_d9
    linarith
  rw [x_fli, if_pos (fli_gt_of_exp_neg_lt h)]

/-- The age flag fires at the high-risk example input. -/
lemma x_age_high : x_age cHigh = 1 := by
  rw [x_age, if_pos (by decide : cHigh.age > 65)]

/-- The glucose flag fires at the high-risk example input. -/
lemma x_fpg_high : x_fpg cHigh = 1 := by
  rw [x_fpg]; exact if_pos (by norm_num [cHigh])

/-- The GGT flag fires at the high-risk example input. -/
lemma x_ggt_high : x_ggt cHigh = 1 := by
  rw [x_ggt]; exact if_pos (by norm_num [cHigh])

/-- The waist flag fires at the high-risk example input. -/
lemma x_waist_high : x_waist cHigh = 1 := by
  rw [x_waist]; exact if_pos (by norm_num [cHigh])

/-- The mFIB-4 index at the high-risk example input evaluates to 28 thirds,
about 9.33. -/
lemma mfib4_high : mfib4 cHigh = 28 / 3 := by
  simp only [mfib4, cHigh]
  norm_num

/-- The mFIB-4 flag fires at the high-risk example input. -/
lemma x_mfib4_high : x_mfib4 cHigh = 1 := by
  rw [x_mfib4, if_pos (by rw [mfib4_high]; norm_num)]

/-- The NLR flag fires at the high-risk example input. -/
lemma x_nlr_high : x_nlr cHigh = 1 := by
  rw [x_nlr]; exact if_pos (by norm_num [cHigh])

/-- The logit at the high-risk example input is the intercept plus the sum
of all seven coefficients, hence 1.571. -/
lemma logit_p_high : logit_p cHigh = 1.571 := by
  simp only [logit_p, intercept, coefficients, x_age_high, x_fpg_high,
    x_ggt_high, x_waist_high, x_fli_high, x_mfib4_high, x_nlr_high]
  norm_num

/-- The probability at the high-risk example input in closed form. -/
lemma probability_high :
    probability cHigh = 1 / (1 + Real.exp (-1.571)) := by
  rw [probability, logit_p_high]

/-- Numeric bound: exp 1.571 exceeds 41 ninths. -/
lemma exp_logit_high_gt : (41 / 9 : ℝ) < Real.exp 1.571 := by
  have hsplit : Real.exp 1.571 = Real.exp 1.5 * Real.exp 0.071 := by
    rw [← Real.exp_add]; norm_num
  have h15 : (4.48 : ℝ) < Real.exp 1.5 := by
    have h1 : Real.exp 1.5 ^ 2 = Real.exp 3 := by
      rw [← Real.exp_nat_mul]; norm_num
    refine lt_of_pow_lt_pow_left₀ 2 (Real.exp_pos 1.5).le ?_
    rw [h1]
    calc (4.48 : ℝ) ^ 2 = 20.0704 := by norm_num
      _ < Real.exp 3 := exp_three_gt
  have h071 : (1.071 : ℝ) ≤ Real.exp 0.071 := by
    have h := Real.add_one_le_exp (0.071 : ℝ)
    linarith
  rw [hsplit]
  calc (41 / 9 : ℝ) < 4.48 * 1.071 := by norm_num
    _ ≤ Real.exp 1.5 * 1.071 :=
      mul_le_mul_of_nonneg_right h15.le (by norm_num)
    _ ≤ Real.exp 1.5 * Real.exp 0.071 :=
      mul_le_mul_of_nonneg_left h071 (Real.exp_pos 1.5).le

/-- Numeric bound: exp 1.571 is below 21 quarters. -/
lemma exp_logit_high_lt : Real.exp 1.571 < 21 / 4 := by
  have h16 : Real.exp 1.6 < 21 / 4 := by
    have h1 : Real.exp 1.6 ^ 5 = Real.exp 8 := by
      rw [← Real.exp_nat_mul]; norm_num
    refine lt_of_pow_lt_pow_left₀ 5 (by norm_num : (0 : ℝ) ≤ 21 / 4) ?_
    rw [h1]
    calc Real.exp 8 < 2981 := exp_eight_lt
      _ < (21 / 4 : ℝ) ^ 5 := by norm_num
  calc Real.exp 1.571 < Real.exp 1.6 := Real.exp_lt_exp.mpr (by norm_num)
    _ < 21 / 4 := h16

/-- The probability at the high-risk example input lies strictly between
0.82 and 0.84 (its value is about 0.8279). -/
lemma probability_high_bounds :
    0.82 < probability cHigh ∧ probability cHigh < 0.84 := by
  rw [probability_high]
  have hpos : (0 : ℝ) < Real.exp 1.571 := Real.exp_pos _
  have hub : Real.exp (-1.571) < 9 / 41 := by
    rw [Real.exp_neg, inv_eq_one_div, div_lt_iff₀ hpos]
    linarith [exp_logit_high_gt]
  have hlb : (4 / 21 : ℝ) < Real.exp (-1.571) := by
    rw [Real.exp_neg, inv_eq_one_div, lt_div_iff₀ hpos]
    linarith [exp_logit_high_lt]
  have hden : (0 : ℝ) < 1 + Real.exp (-1.571) := by positivity
  constructor
  · rw [lt_div_iff₀ hden]; linarith
  · rw [div_lt_iff₀ hden]; linarith

/-- The verdict at the high-risk example input is the high tier. -/
lemma verdict_high : verdict cHigh = .high := by
  have h := probability_high_bounds
  rw [verdict, if_neg (by linarith [h.1] : ¬ probability cHigh < 0.2),
    if_neg (by linarith [h.1] : ¬ probability cHigh < 0.5)]

/-- C1: for every ClinicalInput the risk probability is the logistic function
of the logit built from the intercept -3.089 and the coefficients 0.748,
0.903, 0.510, 0.721, 0.589, 0.731, 0.458 applied to the seven binary flags in
the order Age, Glucose, GGT, Waist, FLI, Fib4, NLR. -/
theorem C1_probability_formula (c : ClinicalInput) :
    probability c =
      1 / (1 + Real.exp (-(-3.089 +
        0.748 * x_age c +
        0.903 * x_fpg c +
        0.510 * x_ggt c +
        0.721 * x_waist c +
        0.589 * x_fli c +
        0.731 * x_mfib4 c +
        0.458 * x_nlr c))) := by
  simp only [probability, logit_p, coefficients, intercept]

/-- C2: for every ClinicalInput with strictly positive triglycerides and ggt,
the liver fat index is the logistic of 0.953 log triglycerides + 0.139 bmi +
0.718 log ggt + 0.053 waist - 15.745, scaled to a percentage. -/
theorem C2_fli_formula (c : ClinicalInput)
    (ht : 0 < c.triglycerides) (hg : 0 < c.ggt) :
    fli c =
      Real.exp (0.953 * Real.log c.triglycerides + 0.139 * c.bmi +
          0.718 * Real.log c.ggt + 0.053 * c.waist - 15.745) /
        (1 + Real.exp (0.953 * Real.log c.triglycerides + 0.139 * c.bmi +
          0.718 * Real.log c.ggt + 0.053 * c.waist - 15.745)) * 100 := by
  simp only [fli, logit_fli]

/-- Witness for C2 at the default input, where triglycerides are 150 and ggt
is 30, both strictly positive. -/
theorem C2_fli_formula_witness :
    0 < cDefault.triglycerides ∧ 0 < cDefault.ggt ∧
    fli cDefault =
      Real.exp (0.953 * Real.log cDefault.triglycerides +
          0.139 * cDefault.bmi + 0.718 * Real.log cDefault.ggt +
          0.053 * cDefault.waist - 15.745) /
        (1 + Real.exp (0.953 * Real.log cDefault.triglycerides +
          0.139 * cDefault.bmi + 0.718 * Real.log cDefault.ggt +
          0.053 * cDefault.waist - 15.745)) * 100 :=
  ⟨by norm_num [cDefault], by norm_num [cDefault],
    C2_fli_formula cDefault (by norm_num [cDefault]) (by norm_num [cDefault])⟩

/-- C3: for every ClinicalInput with nonzero platelet and alt, the modified
fibrosis index is 10 age ast / (platelet alt); with the nonzero denominator
the division is genuine, so the index times the denominator recovers the
numerator. -/
theorem C3_mfib4_formula (c : ClinicalInput)
    (hp : c.platelet ≠ 0) (ha : c.alt ≠ 0) :
    mfib4 c = 10 * c.age * c.ast / (c.platelet * c.alt) ∧
    mfib4 c * (c.platelet * c.alt) = 10 * c.age * c.ast := by
  refine ⟨rfl, ?_⟩
  rw [mfib4]
  exact div_mul_cancel₀ _ (mul_ne_zero hp ha)

/-- Witness for C3 at the default input, where platelet is 200 and alt is
25, both nonzero. -/
theorem C3_mfib4_formula_witness :
    cDefault.platelet ≠ 0 ∧ cDefault.alt ≠ 0 ∧
    (mfib4 cDefault =
        10 * cDefault.age * cDefault.ast / (cDefault.platelet * cDefault.alt) ∧
      mfib4 cDefault * (cDefault.platelet * cDefault.alt) =
        10 * cDefault.age * cDefault.ast) :=
  ⟨by norm_num [cDefault], by norm_num [cDefault],
    C3_mfib4_formula cDefault (by norm_num [cDefault]) (by norm_num [cDefault])⟩

/-- C4 counterexample: at a female input with ggt 40 the spec's gendered GGT
flag (female threshold 32) is 1 while the source's flag (uniform threshold
50) is 0, so the scorer does not apply the gender-specific thresholds the
claim states. -/
theorem C4_counterexample :
    spec_x_ggt cFemale40 = 1 ∧ x_ggt cFemale40 = 0 ∧
      x_ggt cFemale40 ≠ spec_x_ggt cFemale40 := by
  have h1 : spec_x_ggt cFemale40 = 1 := by
    show (if cFemale40.ggt > 32 then (1 : ℝ) else 0) = 1
    exact if_pos (by norm_num [cFemale40])
  have h2 : x_ggt cFemale40 = 0 := by
    rw [x_ggt]
    exact if_neg (by norm_num [cFemale40])
  exact ⟨h1, h2, by rw [h1, h2]; norm_num⟩

/-- C4 amended: the scorer reads no gender; the GGT flag is ggt above 50 and
the waist flag is waist above 88.493 for every input, and changing only the
gender field changes no index, no flag input and no probability. -/
theorem C4_amended (c : ClinicalInput) (g : Gender) :
    x_ggt (setGender c g) = x_ggt c ∧
    x_waist (setGender c g) = x_waist c ∧
    fli (setGender c g) = fli c ∧
    mfib4 (setGender c g) = mfib4 c ∧
    probability (setGender c g) = probability c ∧
    (x_ggt c = 1 ↔ c.ggt > 50) ∧
    (x_waist c = 1 ↔ c.waist > 88.493) := by
  refine ⟨rfl, rfl, rfl, rfl, rfl, ?_, ?_⟩
  · rw [x_ggt]; exact ite_eq_one_iff
  · rw [x_waist]; exact ite_eq_one_iff

/-- C5: every one of the seven flags uses a strict greater-than comparison:
the flag is 1 exactly when its value strictly exceeds its threshold, and a
value exactly at its threshold gives flag 0. -/
theorem C5_strict_thresholds (c : ClinicalInput) :
    (x_age c = 1 ↔ c.age > 65) ∧ (c.age = 65 → x_age c = 0) ∧
    (x_fpg c = 1 ↔ c.fpg > 6.1) ∧ (c.fpg = 6.1 → x_fpg c = 0) ∧
    (x_ggt c = 1 ↔ c.ggt > 50) ∧ (c.ggt = 50 → x_ggt c = 0) ∧
    (x_waist c = 1 ↔ c.waist > 88.493) ∧
    (c.waist = 88.493 → x_waist c = 0) ∧
    (x_fli c = 1 ↔ fli c > 24.7) ∧ (fli c = 24.7 → x_fli c = 0) ∧
    (x_mfib4 c = 1 ↔ mfib4 c > 3.05) ∧ (mfib4 c = 3.05 → x_mfib4 c = 0) ∧
    (x_nlr c = 1 ↔ c.nlr > 1.97) ∧ (c.nlr = 1.97 → x_nlr c = 0) := by
  refine ⟨?_, ?_, ?_, ?_, ?_, ?_, ?_, ?_, ?_, ?_, ?_, ?_, ?_, ?_⟩
  · rw [x_age]; exact ite_eq_one_iff
  · intro h; rw [x_age]; exact if_neg (by simp [h])
  · rw [x_fpg]; exact ite_eq_one_iff
  · intro h; rw [x_fpg]; exact if_neg (by rw [h]; norm_num)
  · rw [x_ggt]; exact ite_eq_one_iff
  · intro h; rw [x_ggt]; exact if_neg (by rw [h]; norm_num)
  · rw [x_waist]; exact ite_eq_one_iff
  · intro h; rw [x_waist]; exact if_neg (by rw [h]; norm_num)
  · rw [x_fli]; exact ite_eq_one_iff
  · intro h; rw [x_fli]; exact if_neg (by rw [h]; norm_num)
  · rw [x_mfib4]; exact ite_eq_one_iff
  · intro h; rw [x_mfib4]; exact if_neg (by rw [h]; norm_num)
  · rw [x_nlr]; exact ite_eq_one_iff
  · intro h; rw [x_nlr]; exact if_neg (by rw [h]; norm_num)

/-- Witness for C5 at the boundary input sitting exactly at the five
directly-compared thresholds: every one of those flags is 0 there. -/
theorem C5_strict_thresholds_witness :
    x_age cBoundary = 0 ∧ x_fpg cBoundary = 0 ∧ x_ggt cBoundary = 0 ∧
      x_waist cBoundary = 0 ∧ x_nlr cBoundary = 0 := by
  obtain ⟨-, h2, -, h4, -, h6, -, h8, -, -, -, -, -, h14⟩ :=
    C5_strict_thresholds cBoundary
  exact ⟨h2 rfl, h4 rfl, h6 rfl, h8 rfl, h14 rfl⟩

/-- C6 counterexample: at the default input (age 50, fpg 5.5, ggt 30, waist
85, nlr 1.5, triglycerides 150, bmi 23, ast 20, alt 25, platelet 200) the
FLI flag is 1, not 0 (FLI is about 30.45, above 24.7), so not all seven
flags are 0 and the logit is not the bare intercept -3.089. -/
theorem C6_counterexample :
    x_fli cDefault = 1 ∧ logit_p cDefault ≠ -3.089 := by
  refine ⟨x_fli_default, ?_⟩
  rw [logit_p_default]; norm_num

/-- C6 amended: at the default input six flags are 0 but the FLI flag is 1,
so the logit is -3.089 + 0.589 = -2.5, the probability is
1 / (1 + exp 2.5), about 0.0759 (strictly between 0.07 and 0.08), and the
verdict is still the low-risk tier. -/
theorem C6_amended :
    x_age cDefault = 0 ∧ x_fpg cDefault = 0 ∧ x_ggt cDefault = 0 ∧
    x_waist cDefault = 0 ∧ x_fli cDefault = 1 ∧ x_mfib4 cDefault = 0 ∧
    x_nlr cDefault = 0 ∧
    logit_p cDefault = -3.089 + 0.589 ∧
    probability cDefault = 1 / (1 + Real.exp 2.5) ∧
    0.07 < probability cDefault ∧ probability cDefault < 0.08 ∧
    verdict cDefault = .low := by
  refine ⟨x_age_default, x_fpg_default, x_ggt_default, x_waist_default,
    x_fli_default, x_mfib4_default, x_nlr_default, ?_, probability_default,
    probability_default_bounds.1, probability_default_bounds.2,
    verdict_default⟩
  rw [logit_p_default]; norm_num

/-- C7 counterexample: at the high-risk example input the logit is 1.571,
not the claimed -3.089 + 4.68 = 1.591; the seven coefficients sum to 4.660,
not 4.68. -/
theorem C7_counterexample : logit_p cHigh ≠ -3.089 + 4.68 := by
  rw [logit_p_high]; norm_num

/-- C7 amended: at the input age 70, fpg 7.0, ggt 60, waist 95, nlr 2.5,
triglycerides 200, bmi 30, ast 40, alt 20, platelet 150 all seven flags are
1, mFIB4 is 28/3 (about 9.33), the logit is -3.089 + 4.660 = 1.571, the
probability is about 0.83 (strictly between 0.82 and 0.84) and the verdict
is the high-risk tier. -/
theorem C7_amended :
    x_age cHigh = 1 ∧ x_fpg cHigh = 1 ∧ x_ggt cHigh = 1 ∧ x_waist cHigh = 1 ∧
    x_fli cHigh = 1 ∧ x_mfib4 cHigh = 1 ∧ x_nlr cHigh = 1 ∧
    mfib4 cHigh = 28 / 3 ∧
    logit_p cHigh = -3.089 + 4.660 ∧
    0.82 < probability cHigh ∧ probability cHigh < 0.84 ∧
    verdict cHigh = .high := by
  refine ⟨x_age_high, x_fpg_high, x_ggt_high, x_waist_high, x_fli_high,
    x_mfib4_high, x_nlr_high, mfib4_high, ?_, probability_high_bounds.1,
    probability_high_bounds.2, verdict_high⟩
  rw [logit_p_high]; norm_num

/-- C8: for every ClinicalInput within the declared domains of spec section
3, the probability lies in the closed interval 0 to 1 and FLI lies in the
closed interval 0 to 100. -/
theorem C8_output_ranges (c : ClinicalInput) (h : InDomain c) :
    0 ≤ probability c ∧ probability c ≤ 1 ∧ 0 ≤ fli c ∧ fli c ≤ 100 := by
  have hE : 0 < Real.exp (-logit_p c) := Real.exp_pos _
  have hden : (0 : ℝ) < 1 + Real.exp (-logit_p c) := by linarith
  have hF : 0 < Real.exp (logit_fli c) := Real.exp_pos _
  have hFden : (0 : ℝ) < 1 + Real.exp (logit_fli c) := by linarith
  refine ⟨?_, ?_, ?_, ?_⟩
  · rw [probability]; positivity
  · rw [probability, div_le_one hden]; linarith
  · rw [fli]; positivity
  · rw [fli, div_mul_eq_mul_div, div_le_iff₀ hFden]; linarith

/-- Witness for C8 at the default input, which lies within every declared
domain. -/
theorem C8_output_ranges_witness :
    InDomain cDefault ∧
    (0 ≤ probability cDefault ∧ probability cDefault ≤ 1 ∧
      0 ≤ fli cDefault ∧ fli cDefault ≤ 100) :=
  ⟨by norm_num [InDomain, cDefault],
    C8_output_ranges cDefault (by norm_num [InDomain, cDefault])⟩

/-- C9: for every ClinicalInput within the declared domains, platelet and
alt are nonzero, so the mFIB4 denominator platelet times alt is nonzero and
the division-by-zero condition is unreachable; the division is genuine in
the sense that the index times the denominator recovers the numerator. -/
theorem C9_mfib4_denominator (c : ClinicalInput) (h : InDomain c) :
    c.platelet ≠ 0 ∧ c.alt ≠ 0 ∧ c.platelet * c.alt ≠ 0 ∧
      mfib4 c * (c.platelet * c.alt) = 10 * c.age * c.ast := by
  obtain ⟨-, -, -, -, -, -, -, -, -, -, -, -, -, -, -, -, halt, -, hplat, -⟩ :=
    h
  have hp : (0 : ℝ) < c.platelet := by linarith
  have ha : (0 : ℝ) < c.alt := by linarith
  refine ⟨hp.ne', ha.ne', (mul_pos hp ha).ne', ?_⟩
  rw [mfib4]
  exact div_mul_cancel₀ _ (mul_pos hp ha).ne'

/-- Witness for C9 at the default input. -/
theorem C9_mfib4_denominator_witness :
    InDomain cDefault ∧
    (cDefault.platelet ≠ 0 ∧ cDefault.alt ≠ 0 ∧
      cDefault.platelet * cDefault.alt ≠ 0 ∧
      mfib4 cDefault * (cDefault.platelet * cDefault.alt) =
        10 * cDefault.age * cDefault.ast) :=
  ⟨by norm_num [InDomain, cDefault],
    C9_mfib4_denominator cDefault (by norm_num [InDomain, cDefault])⟩

/-- C10: for every ClinicalInput whatsoever the logit lies in the closed
interval from -3.089 to 1.571, because every coefficient is positive and the
seven coefficients sum to 4.660; hence the probability always lies between
1 / (1 + exp 3.089), about 0.0436, and 1 / (1 + exp (-1.571)), about 0.828,
strictly inside the open interval 0 to 1. -/
theorem C10_logit_probability_range (c : ClinicalInput) :
    (-3.089 ≤ logit_p c ∧ logit_p c ≤ 1.571) ∧
    (1 / (1 + Real.exp 3.089) ≤ probability c ∧
      probability c ≤ 1 / (1 + Real.exp (-1.571))) ∧
    (0 < probability c ∧ probability c < 1) ∧
    (0 < coefficients .ageHigh ∧ 0 < coefficients .glucoseHigh ∧
      0 < coefficients .ggtHigh ∧ 0 < coefficients .waistHigh ∧
      0 < coefficients .fliHigh ∧ 0 < coefficients .fib4High ∧
      0 < coefficients .nlrHigh) ∧
    coefficients .ageHigh + coefficients .glucoseHigh +
      coefficients .ggtHigh + coefficients .waistHigh +
      coefficients .fliHigh + coefficients .fib4High +
      coefficients .nlrHigh = 4.660 := by
  have h1 : 0 ≤ x_age c ∧ x_age c ≤ 1 := by
    rw [x_age]; exact ite_zero_one_bounds
  have h2 : 0 ≤ x_fpg c ∧ x_fpg c ≤ 1 := by
    rw [x_fpg]; exact ite_zero_one_bounds
  have h3 : 0 ≤ x_ggt c ∧ x_ggt c ≤ 1 := by
    rw [x_ggt]; exact ite_zero_one_bounds
  have h4 : 0 ≤ x_waist c ∧ x_waist c ≤ 1 := by
    rw [x_waist]; exact ite_zero_one_bounds
  have h5 : 0 ≤ x_fli c ∧ x_fli c ≤ 1 := by
    rw [x_fli]; exact ite_zero_one_bounds
  have h6 : 0 ≤ x_mfib4 c ∧ x_mfib4 c ≤ 1 := by
    rw [x_mfib4]; exact ite_zero_one_bounds
  have h7 : 0 ≤ x_nlr c ∧ x_nlr c ≤ 1 := by
    rw [x_nlr]; exact ite_zero_one_bounds
  have hlog : -3.089 ≤ logit_p c ∧ logit_p c ≤ 1.571 := by
    rw [logit_p]
    simp only [intercept, coefficients]
    constructor
    · linarith [h1.1, h2.1, h3.1, h4.1, h5.1, h6.1, h7.1]
    · linarith [h1.2, h2.2, h3.2, h4.2, h5.2, h6.2, h7.2]
  have hEpos : 0 < Real.exp (-logit_p c) := Real.exp_pos _
  have hden : (0 : ℝ) < 1 + Real.exp (-logit_p c) := by linarith
  have hlb : 1 / (1 + Real.exp 3.089) ≤ probability c := by
    have hmono := sigmoid_mono hlog.1
    rw [probability]
    rwa [show (-(-3.089 : ℝ)) = 3.089 by norm_num] at hmono
  have hub : probability c ≤ 1 / (1 + Real.exp (-1.571)) := by
    rw [probability]
    exact sigmoid_mono hlog.2
  refine ⟨hlog, ⟨hlb, hub⟩, ⟨?_, ?_⟩, by norm_num [coefficients],
    by norm_num [coefficients]⟩
  · rw [probability]; positivity
  · rw [probability, div_lt_one hden]; linarith

end NAFPD
